import Mathlib

/-!
Shallow embedding of the real-time messaging core of the repository:
the socket message handlers (`src/backend/src/socket/handlers/message.handler.ts`),
the presence handlers (`src/backend/src/socket/handlers/presence.handler.ts`),
the connection registration in the socket bootstrap, and the HTTP chat-history
controller (`getChatHistory`).

Modelling conventions:
* User ids, message ids, socket ids and timestamps are `Nat`.
* The `io.userSockets` JavaScript `Map<string, string>` is an association list
  with `Map` semantics (`mapGet` / `mapSet` / `mapDelete`).
* The Durable Store (MongoDB collections) is in-memory: lists of records inside
  `ServerState`.  `Message.create` appends with a fresh id, `find?` plays the
  role of `findById` / `findOne`, `List.map` with a per-element `if` plays the
  role of `updateMany` / `save`.
* Socket emissions are returned as a list of `Emit` values; `self…` constructors
  are `socket.emit` to the initiating connection, `push…` constructors are
  `io.to(handle).emit`, and `broadcastStatus` is `socket.broadcast.emit`.
* `await`ed Durable Store WRITE calls (`Message.create`, `message.save`,
  `Message.updateMany`) can throw; this is modelled by a `storeFail` flag with
  the thrown error's message `errText`.  When the write throws, control moves
  to the handler's `catch` block, exactly as in the source.
-/

namespace ChatApp

/-- Message kind, the `type` field of the Message schema: text, image or audio. -/
inductive MsgType where
  | text
  | image
  | audio
deriving DecidableEq, Repr

/-- One entry of a message's `reactions` array: `{ user, emoji, createdAt }`. -/
structure Reaction where
  user : Nat
  emoji : String
  createdAt : Nat
deriving DecidableEq, Repr

/-- A persisted message document. -/
structure Message where
  id : Nat
  sender : Nat
  receiver : Nat
  content : Option String
  image : Option String
  audio : Option String
  type : MsgType
  isRead : Bool
  isEdited : Bool
  editedAt : Option Nat
  replyTo : Option Nat
  reactions : List Reaction
deriving DecidableEq, Repr

/-- A persisted user document (the slice the presence code touches). -/
structure UserRec where
  id : Nat
  isOnline : Bool
  lastSeen : Option Nat
deriving DecidableEq, Repr

/-- Server state: the in-memory `io.userSockets` map plus the Durable Store
collections (users, directed contact edges, messages) and the next fresh
message id. -/
structure ServerState where
  userSockets : List (Nat × Nat)
  users : List UserRec
  contacts : List (Nat × Nat)
  messages : List Message
  nextId : Nat
deriving DecidableEq, Repr

/-- `Map.prototype.get`: the value stored at key `k`, if any. -/
def mapGet (m : List (Nat × Nat)) (k : Nat) : Option Nat :=
  (m.find? (fun p => p.1 == k)).map (fun p => p.2)

/-- `Map.prototype.set`: update in place when the key is present, else append.
A JavaScript `Map` can never hold two entries with the same key. -/
def mapSet (m : List (Nat × Nat)) (k v : Nat) : List (Nat × Nat) :=
  if m.any (fun p => p.1 == k) then
    m.map (fun p => if p.1 == k then (k, v) else p)
  else
    m ++ [(k, v)]

/-- `Map.prototype.delete`: drop every entry with key `k`. -/
def mapDelete (m : List (Nat × Nat)) (k : Nat) : List (Nat × Nat) :=
  m.filter (fun p => p.1 != k)

/-- The keys of the registry, used to state the one-handle-per-user invariant. -/
def regKeys (m : List (Nat × Nat)) : List Nat :=
  m.map Prod.fst

/-- An observable emission of a handler. -/
inductive Emit where
  /-- `socket.emit(event, populatedMessage)` to the initiating connection. -/
  | selfEvent (event : String) (msgId : Nat)
  /-- `socket.emit('message:error', ...)` to the initiating connection. -/
  | selfError (text : String)
  /-- `io.to(handle).emit(event, populatedMessage)` to one live handle. -/
  | pushEvent (handle : Nat) (event : String) (msgId : Nat)
  /-- `io.to(handle).emit('message:read', ...)` naming `userId`. -/
  | pushRead (handle : Nat) (userId : Nat)
  /-- `socket.broadcast.emit('user:status', ...)` to all other connections. -/
  | broadcastStatus (userId : Nat) (isOnline : Bool)
deriving DecidableEq, Repr

/-- `Contact.findOne({ user, contact })` viewed as a boolean: does a directed
contact edge from `user` to `contact` exist? -/
def hasContact (st : ServerState) (user contact : Nat) : Bool :=
  st.contacts.any (fun p => p.1 == user && p.2 == contact)

/-- `Message.updateMany`-style update of every message satisfying `cond`. -/
def updateMessages (l : List Message) (cond : Message → Bool)
    (f : Message → Message) : List Message :=
  l.map (fun m => if cond m then f m else m)

/-- `User.findByIdAndUpdate` on the users collection. -/
def updateUser (users : List UserRec) (uid : Nat) (f : UserRec → UserRec) :
    List UserRec :=
  users.map (fun u => if u.id == uid then f u else u)

/-- Handler for `message:send`.  Checks the directed contact edge, then
persists a new message (optional `replyTo` stored as given, with no existence
check on the target), confirms to the sender and pushes to the receiver's
live handle when present.  `storeFail` models `Message.create` throwing. -/
def handleMessageSend (storeFail : Bool) (errText : String) (st : ServerState)
    (senderId receiverId : Nat) (content image audio : Option String)
    (type : MsgType) (replyTo : Option Nat) : ServerState × List Emit :=
  if !(hasContact st senderId receiverId) then
    (st, [Emit.selfError "Can only send messages to contacts"])
  else if storeFail then
    (st, [Emit.selfError errText])
  else
    let msg : Message :=
      { id := st.nextId, sender := senderId, receiver := receiverId,
        content := content, image := image, audio := audio, type := type,
        isRead := false, isEdited := false, editedAt := none,
        replyTo := replyTo, reactions := [] }
    let st' := { st with messages := st.messages ++ [msg], nextId := st.nextId + 1 }
    let pushes :=
      match mapGet st.userSockets receiverId with
      | some h => [Emit.pushEvent h "message:receive" msg.id]
      | none => []
    (st', Emit.selfEvent "message:sent" msg.id :: pushes)

/-- Handler for `message:edit`.  Looks the message up, rejects a missing
message, a non-sender actor, or a non-text message, then mutates content,
sets `isEdited` with a timestamp and pushes to both parties.  `storeFail`
models `message.save()` throwing. -/
def handleMessageEdit (storeFail : Bool) (errText : String) (st : ServerState)
    (senderId messageId : Nat) (content : Option String) (now : Nat) :
    ServerState × List Emit :=
  match st.messages.find? (fun m => m.id == messageId) with
  | none => (st, [Emit.selfError "Message not found"])
  | some message =>
    if message.sender != senderId then
      (st, [Emit.selfError "Not authorized"])
    else if message.type != MsgType.text then
      (st, [Emit.selfError "Can only edit text messages"])
    else if storeFail then
      (st, [Emit.selfError errText])
    else
      let updated := { message with content := content, isEdited := true,
                                    editedAt := some now }
      let newMessages :=
        st.messages.map (fun m => if m.id == messageId then updated else m)
      let st' := { st with messages := newMessages }
      let pushes :=
        match mapGet st.userSockets message.receiver with
        | some h => [Emit.pushEvent h "message:edited" message.id]
        | none => []
      (st', Emit.selfEvent "message:edited" message.id :: pushes)

/-- The reaction toggle on a reactions array, as written in the source: find a
`(user, emoji)` entry; when one exists filter out every matching entry,
otherwise push a fresh entry with the current timestamp.  (The source checks
the truthiness of `Array.prototype.find`, i.e. whether a match exists.) -/
def toggleReactions (rs : List Reaction) (userId : Nat) (emoji : String)
    (now : Nat) : List Reaction :=
  if rs.any (fun r => r.user == userId && r.emoji == emoji) then
    rs.filter (fun r => !(r.user == userId && r.emoji == emoji))
  else
    rs ++ [{ user := userId, emoji := emoji, createdAt := now }]

/-- The `(reactor, emoji)` pairs of a reactions array. -/
def reactionPairs (rs : List Reaction) : List (Nat × String) :=
  rs.map (fun r => (r.user, r.emoji))

/-- Handler for `message:reaction`.  Rejects a missing message, toggles the
`(user, emoji)` entry, persists and pushes the updated message to the actor
and to the other participant's live handle.  `storeFail` models
`message.save()` throwing. -/
def handleReaction (storeFail : Bool) (errText : String) (st : ServerState)
    (userId messageId : Nat) (emoji : String) (now : Nat) :
    ServerState × List Emit :=
  match st.messages.find? (fun m => m.id == messageId) with
  | none => (st, [Emit.selfError "Message not found"])
  | some message =>
    if storeFail then
      (st, [Emit.selfError errText])
    else
      let newReactions := toggleReactions message.reactions userId emoji now
      let updated := { message with reactions := newReactions }
      let newMessages :=
        st.messages.map (fun m => if m.id == messageId then updated else m)
      let st' := { st with messages := newMessages }
      let otherUserId :=
        if message.sender == userId then message.receiver else message.sender
      let pushes :=
        match mapGet st.userSockets otherUserId with
        | some h => [Emit.pushEvent h "message:reacted" message.id]
        | none => []
      (st', Emit.selfEvent "message:reacted" message.id :: pushes)

/-- The `updateMany` filter used by markRead and history retrieval: unread
messages from `A` to `B`. -/
def unreadFrom (A B : Nat) : Message → Bool :=
  fun m => m.sender == A && m.receiver == B && !m.isRead

/-- The `updateMany` payload: flip `isRead` to true. -/
def setRead : Message → Message :=
  fun m => { m with isRead := true }

/-- Handler for `message:read` (markRead).  Bulk-flips `isRead` on every
message from `senderId` to `receiverId`, then — unconditionally on the match
count — notifies the counterparty's live handle when one exists.  The `catch`
block of this handler only logs: on a store failure nothing is emitted. -/
def handleRead (storeFail : Bool) (_errText : String) (st : ServerState)
    (senderId receiverId : Nat) : ServerState × List Emit :=
  if storeFail then
    (st, [])
  else
    let newMessages := updateMessages st.messages (unreadFrom senderId receiverId) setRead
    let st' := { st with messages := newMessages }
    let pushes :=
      match mapGet st.userSockets senderId with
      | some h => [Emit.pushRead h receiverId]
      | none => []
    (st', pushes)

/-- Result of the HTTP chat-history controller. -/
inductive HistoryResult where
  | ok (messages : List Message)
  | err (status : Nat) (text : String)
deriving DecidableEq, Repr

/-- The `getChatHistory` controller: contact check, fetch of the conversation
snapshot, and then — before responding — an `updateMany` that marks every
unread message from the counterparty to the caller as read.  The response
carries the snapshot taken before that update. -/
def getChatHistory (st : ServerState) (currentUserId userId : Nat) :
    ServerState × HistoryResult :=
  if !(hasContact st currentUserId userId) then
    (st, HistoryResult.err 403 "You can only view messages from your contacts")
  else
    let fetched := st.messages.filter (fun m =>
      (m.sender == currentUserId && m.receiver == userId) ||
      (m.sender == userId && m.receiver == currentUserId))
    let newMessages := updateMessages st.messages (unreadFrom userId currentUserId) setRead
    let st' := { st with messages := newMessages }
    (st', HistoryResult.ok fetched)

/-- The connection handler of the socket bootstrap: after authentication it
stores `io.userSockets.set(userId, socket.id)` and registers the event
handlers.  It writes nothing to the Durable Store and emits nothing. -/
def handleConnection (st : ServerState) (userId socketId : Nat) :
    ServerState × List Emit :=
  ({ st with userSockets := mapSet st.userSockets userId socketId }, [])

/-- Handler for the client-emitted `user:online` signal: set `isOnline` in
the Durable Store and broadcast `user:status` to all other connections. -/
def handleUserOnline (st : ServerState) (userId : Nat) : ServerState × List Emit :=
  ({ st with users := updateUser st.users userId (fun u => { u with isOnline := true }) },
   [Emit.broadcastStatus userId true])

/-- The `disconnect` handler: mark the user offline with a last-seen
timestamp, broadcast `user:status`, and delete the user's registry entry.
The disconnecting socket's own id (`socketHandle`) is not consulted: the
delete is keyed by `userId` alone. -/
def handleDisconnect (st : ServerState) (userId _socketHandle : Nat) (now : Nat) :
    ServerState × List Emit :=
  ({ st with
      users := updateUser st.users userId
        (fun u => { u with isOnline := false, lastSeen := some now }),
      userSockets := mapDelete st.userSockets userId },
   [Emit.broadcastStatus userId false])

/-! ## Helper lemmas about the registry map operations -/

/-- A map whose function fixes every element of the list is the identity. -/
theorem map_id_on {A : Type} (l : List A) (f : A → A) (h : ∀ a ∈ l, f a = a) :
    l.map f = l := by
  induction l with
  | nil => rfl
  | cons a t ih =>
    rw [List.map_cons, h a (List.mem_cons_self a t),
        ih (fun b hb => h b (List.mem_cons_of_mem a hb))]

theorem mapGet_delete_self (m : List (Nat × Nat)) (k : Nat) :
    mapGet (mapDelete m k) k = none := by
  have h : (mapDelete m k).find? (fun p => p.1 == k) = none := by
    rw [List.find?_eq_none]
    intro x hx
    have hx2 := (List.mem_filter.mp hx).2
    simp only [bne_iff_ne, ne_eq] at hx2
    simp [hx2]
  simp [mapGet, h]

theorem mapGet_delete_ne (m : List (Nat × Nat)) (k v : Nat) (h : v ≠ k) :
    mapGet (mapDelete m k) v = mapGet m v := by
  induction m with
  | nil => rfl
  | cons p t ih =>
    unfold mapGet mapDelete at *
    by_cases hk : p.1 = k
    · rw [List.filter_cons_of_neg (by simp [hk])]
      rw [List.find?_cons_of_neg _ (by simp [hk, Ne.symm h])]
      exact ih
    · rw [List.filter_cons_of_pos (by simp [hk])]
      by_cases hv : p.1 = v
      · rw [List.find?_cons_of_pos _ (by simp [hv]),
            List.find?_cons_of_pos _ (by simp [hv])]
      · rw [List.find?_cons_of_neg _ (by simp [hv]),
            List.find?_cons_of_neg _ (by simp [hv])]
        exact ih

/-- The update function of `mapSet` does not change which entries match key `k`. -/
theorem setFun_pred (k v : Nat) :
    ((fun p : Nat × Nat => p.1 == k) ∘ (fun p => if p.1 == k then (k, v) else p))
      = (fun p : Nat × Nat => p.1 == k) := by
  funext p
  by_cases hp : p.1 = k
  · simp [hp]
  · simp [hp]

theorem mapGet_set_self (m : List (Nat × Nat)) (k v : Nat) :
    mapGet (mapSet m k v) k = some v := by
  unfold mapGet mapSet
  by_cases ha : m.any (fun p => p.1 == k)
  · rw [if_pos ha, List.find?_map, setFun_pred]
    obtain ⟨p0, hp0, hp0k⟩ := List.any_eq_true.mp ha
    cases hq : m.find? (fun p => p.1 == k) with
    | none =>
      rw [List.find?_eq_none] at hq
      exact absurd hp0k (hq p0 hp0)
    | some q =>
      have hqk := List.find?_some hq
      simp only [beq_iff_eq] at hqk
      simp [hqk]
  · rw [if_neg ha, List.find?_append]
    have hnone : m.find? (fun p => p.1 == k) = none := by
      rw [List.find?_eq_none]
      intro p hp hc
      exact ha (List.any_eq_true.mpr ⟨p, hp, hc⟩)
    rw [hnone]
    simp

theorem mapGet_set_ne (m : List (Nat × Nat)) (k v w : Nat) (h : w ≠ k) :
    mapGet (mapSet m k v) w = mapGet m w := by
  unfold mapGet mapSet
  by_cases ha : m.any (fun p => p.1 == k)
  · rw [if_pos ha, List.find?_map]
    have hfun : ((fun p : Nat × Nat => p.1 == w)
          ∘ (fun p => if p.1 == k then (k, v) else p))
        = (fun p : Nat × Nat => p.1 == w) := by
      funext p
      by_cases hp : p.1 = k
      · simp [hp, Ne.symm h]
      · simp [hp]
    rw [hfun]
    cases hq : m.find? (fun p => p.1 == w) with
    | none => simp
    | some q =>
      have hqw := List.find?_some hq
      simp only [beq_iff_eq] at hqw
      simp [hqw, h]
  · rw [if_neg ha, List.find?_append]
    have h2 : List.find? (fun p : Nat × Nat => p.1 == w) [(k, v)] = none := by
      simp [Ne.symm h]
    rw [h2]
    cases hq : m.find? (fun p => p.1 == w) <;> simp

theorem regKeys_mapSet_nodup (m : List (Nat × Nat)) (k v : Nat)
    (h : (regKeys m).Nodup) : (regKeys (mapSet m k v)).Nodup := by
  unfold regKeys mapSet
  by_cases ha : m.any (fun p => p.1 == k)
  · rw [if_pos ha, List.map_map]
    have hfun : (Prod.fst ∘ (fun p : Nat × Nat => if p.1 == k then (k, v) else p))
        = (Prod.fst : Nat × Nat → Nat) := by
      funext p
      by_cases hp : p.1 = k
      · simp [hp]
      · simp [hp]
    rw [hfun]
    exact h
  · rw [if_neg ha, List.map_append]
    rw [List.nodup_append]
    refine ⟨h, by simp, ?_⟩
    intro x hx hk
    simp only [List.map_cons, List.map_nil, List.mem_singleton] at hk
    subst hk
    obtain ⟨p, hp, hpk⟩ := List.mem_map.mp hx
    exact ha (List.any_eq_true.mpr ⟨p, hp, by simp [hpk]⟩)

/-- Under the one-entry-per-key invariant, a key present in the map is held by
exactly one entry. -/
theorem countP_key_eq_one (m : List (Nat × Nat)) (k : Nat)
    (hnd : (regKeys m).Nodup) (ha : m.any (fun p => p.1 == k)) :
    m.countP (fun p => p.1 == k) = 1 := by
  induction m with
  | nil => simp at ha
  | cons p t ih =>
    unfold regKeys at hnd
    simp only [List.map_cons, List.nodup_cons] at hnd
    by_cases hp : p.1 = k
    · rw [List.countP_cons]
      have ht : t.countP (fun q => q.1 == k) = 0 := by
        rw [List.countP_eq_zero]
        intro q hq hc
        simp only [beq_iff_eq] at hc
        exact hnd.1 (List.mem_map.mpr ⟨q, hq, by rw [hc, hp]⟩)
      simp [hp, ht]
    · rw [List.countP_cons]
      have hp' : (p.1 == k) = false := by simp [hp]
      simp only [hp', if_false, Nat.add_zero]
      simp only [List.any_cons, hp', Bool.false_or] at ha
      exact ih hnd.2 ha

theorem countP_mapSet (m : List (Nat × Nat)) (k v : Nat)
    (h : (regKeys m).Nodup) :
    (mapSet m k v).countP (fun p => p.1 == k) = 1 := by
  unfold mapSet
  by_cases ha : m.any (fun p => p.1 == k)
  · rw [if_pos ha, List.countP_map, setFun_pred]
    exact countP_key_eq_one m k h ha
  · rw [if_neg ha, List.countP_append]
    have h0 : m.countP (fun p => p.1 == k) = 0 := by
      rw [List.countP_eq_zero]
      intro p hp hc
      exact ha (List.any_eq_true.mpr ⟨p, hp, hc⟩)
    simp [h0, List.countP_cons]

/-! ## Helper lemmas about messages and reactions -/

/-- An `updateMany` whose condition matches nothing is the identity. -/
theorem updateMessages_id (l : List Message) (cond : Message → Bool)
    (f : Message → Message) (h : ∀ m ∈ l, cond m = false) :
    updateMessages l cond f = l := by
  unfold updateMessages
  apply map_id_on
  intro m hm
  rw [h m hm]
  simp

/-- After an in-place update of the message with id `mid`, `findById` returns
the updated document. -/
theorem find?_update (l : List Message) (mid : Nat) (u : Message)
    (hu : u.id = mid) (msg : Message)
    (h : l.find? (fun m => m.id == mid) = some msg) :
    (l.map (fun m => if m.id == mid then u else m)).find?
      (fun m => m.id == mid) = some u := by
  induction l with
  | nil => simp at h
  | cons a t ih =>
    by_cases hk : a.id = mid
    · rw [List.map_cons, if_pos (by simp [hk])]
      rw [List.find?_cons_of_pos _ (by simp [hu])]
    · rw [List.map_cons, if_neg (by simp [hk])]
      rw [List.find?_cons_of_neg _ (by simp [hk])]
      rw [List.find?_cons_of_neg _ (by simp [hk])] at h
      exact ih h

/-- The truthiness check on `reactions.find(...)` in the source holds exactly
when `(u, e)` occurs among the message's reaction pairs. -/
theorem any_reaction_iff (rs : List Reaction) (u : Nat) (e : String) :
    rs.any (fun r => r.user == u && r.emoji == e) = true
      ↔ (u, e) ∈ reactionPairs rs := by
  unfold reactionPairs
  simp only [List.any_eq_true, List.mem_map, Bool.and_eq_true, beq_iff_eq,
    Prod.mk.injEq]

/-- A toggle for an absent `(u, e)` pair appends exactly one fresh entry. -/
theorem toggle_absent (rs : List Reaction) (u : Nat) (e : String) (t : Nat)
    (h : (u, e) ∉ reactionPairs rs) :
    toggleReactions rs u e t
      = rs ++ [{ user := u, emoji := e, createdAt := t }] := by
  unfold toggleReactions
  rw [if_neg]
  intro hc
  exact h ((any_reaction_iff rs u e).mp hc)

/-- A toggle for a present `(u, e)` pair removes exactly the matching entries. -/
theorem toggle_present (rs : List Reaction) (u : Nat) (e : String) (t : Nat)
    (h : (u, e) ∈ reactionPairs rs) :
    toggleReactions rs u e t
      = rs.filter (fun r => !(r.user == u && r.emoji == e)) := by
  unfold toggleReactions
  rw [if_pos ((any_reaction_iff rs u e).mpr h)]

/-- Filtering out the `(u, e)` entries removes exactly the pair `(u, e)` from
the reaction pairs. -/
theorem mem_pairs_filter (rs : List Reaction) (u : Nat) (e : String)
    (p : Nat × String) :
    p ∈ reactionPairs (rs.filter (fun r => !(r.user == u && r.emoji == e)))
      ↔ p ∈ reactionPairs rs ∧ p ≠ (u, e) := by
  unfold reactionPairs
  simp only [List.mem_map, List.mem_filter, Bool.not_eq_eq_eq_not,
    Bool.not_true, Bool.and_eq_false_imp, beq_iff_eq, beq_eq_false_iff_ne]
  constructor
  · rintro ⟨r, ⟨hr, hne⟩, rfl⟩
    refine ⟨⟨r, hr, rfl⟩, ?_⟩
    intro hc
    rw [Prod.mk.injEq] at hc
    exact hne hc.1 hc.2
  · rintro ⟨⟨r, hr, rfl⟩, hne⟩
    refine ⟨r, ⟨hr, ?_⟩, rfl⟩
    intro h1 h2
    exact hne (by rw [h1, h2])

/-- Toggling the same `(u, e)` twice restores the original set of
`(reactor, emoji)` pairs. -/
theorem toggle_toggle_pairs (rs : List Reaction) (u : Nat) (e : String)
    (t1 t2 : Nat) (p : Nat × String) :
    p ∈ reactionPairs (toggleReactions (toggleReactions rs u e t1) u e t2)
      ↔ p ∈ reactionPairs rs := by
  by_cases h : (u, e) ∈ reactionPairs rs
  · rw [toggle_present rs u e t1 h]
    have habs : (u, e) ∉ reactionPairs
        (rs.filter (fun r => !(r.user == u && r.emoji == e))) := by
      intro hc
      exact ((mem_pairs_filter rs u e (u, e)).mp hc).2 rfl
    rw [toggle_absent _ u e t2 habs]
    have hsplit : p ∈ reactionPairs
        ((rs.filter (fun r => !(r.user == u && r.emoji == e)))
          ++ [{ user := u, emoji := e, createdAt := t2 }])
        ↔ p ∈ reactionPairs (rs.filter (fun r => !(r.user == u && r.emoji == e)))
            ∨ p = (u, e) := by
      unfold reactionPairs
      rw [List.map_append]
      simp
    rw [hsplit, mem_pairs_filter]
    by_cases hp : p = (u, e)
    · subst hp
      simp [h]
    · simp [hp]
  · rw [toggle_absent rs u e t1 h]
    have hpres : (u, e) ∈ reactionPairs
        (rs ++ [{ user := u, emoji := e, createdAt := t1 }]) := by
      unfold reactionPairs
      rw [List.map_append]
      simp
    rw [toggle_present _ u e t2 hpres, mem_pairs_filter]
    have hsplit : p ∈ reactionPairs (rs ++ [{ user := u, emoji := e, createdAt := t1 }])
        ↔ p ∈ reactionPairs rs ∨ p = (u, e) := by
      unfold reactionPairs
      rw [List.map_append]
      simp
    rw [hsplit]
    by_cases hp : p = (u, e)
    · subst hp
      simp [h]
    · simp [hp]

/-- When `findById` succeeds, the reaction handler's new message list is the
in-place toggle update of the found document. -/
theorem handleReaction_found (e : String) (st : ServerState) (u mid : Nat)
    (em : String) (t : Nat) (msg : Message)
    (hfind : st.messages.find? (fun m => m.id == mid) = some msg) :
    (handleReaction false e st u mid em t).1.messages
      = st.messages.map (fun m => if m.id == mid then
          { msg with reactions := toggleReactions msg.reactions u em t }
          else m) := by
  simp [handleReaction, hfind]

/-! ## Concrete states used by counterexamples and witnesses -/

/-- A text message from user 0 to user 1, unread, no reactions. -/
def msgA : Message :=
  { id := 0, sender := 0, receiver := 1, content := some "hi", image := none,
    audio := none, type := MsgType.text, isRead := false, isEdited := false,
    editedAt := none, replyTo := none, reactions := [] }

/-- The empty server state. -/
def stEmpty : ServerState :=
  { userSockets := [], users := [], contacts := [], messages := [], nextId := 0 }

/-- User 1 has a contact edge to user 0 and the store holds one unread
message from user 0 to user 1. -/
def stHist : ServerState :=
  { userSockets := [], users := [], contacts := [(1, 0)], messages := [msgA],
    nextId := 1 }

/-- User 0 currently registered with live handle 1. -/
def stReg : ServerState :=
  { userSockets := [(0, 1)], users := [], contacts := [], messages := [],
    nextId := 0 }

/-- User 0 online with handle 5; no messages exist at all. -/
def stRead : ServerState :=
  { userSockets := [(0, 5)], users := [], contacts := [], messages := [],
    nextId := 0 }

/-- A directed contact edge 0→1 and an empty message store. -/
def stSend : ServerState :=
  { userSockets := [], users := [], contacts := [(0, 1)], messages := [],
    nextId := 0 }

/-- One offline user (id 0) in the Durable Store, nobody registered yet. -/
def stOnline : ServerState :=
  { userSockets := [], users := [{ id := 0, isOnline := false, lastSeen := none }],
    contacts := [], messages := [], nextId := 0 }

/-- A state holding the single message `msgA`, used for reaction toggling. -/
def stReact : ServerState :=
  { userSockets := [], users := [], contacts := [], messages := [msgA],
    nextId := 1 }

/-! ## Claim theorems -/

/-- C10: the Session Registry maps each user to at most one live handle:
`register` (the `io.userSockets.set` performed by the connection handler)
installs the handle or replaces the user's previous one, never appends a
second entry for the same user, and leaves every other user's entry alone. -/
theorem register_single_handle (st : ServerState) (u h : Nat)
    (hnd : (regKeys st.userSockets).Nodup) :
    (regKeys (handleConnection st u h).1.userSockets).Nodup
    ∧ mapGet (handleConnection st u h).1.userSockets u = some h
    ∧ (∀ v, v ≠ u → mapGet (handleConnection st u h).1.userSockets v
        = mapGet st.userSockets v)
    ∧ (handleConnection st u h).1.userSockets.countP (fun p => p.1 == u) = 1 := by
  refine ⟨?_, ?_, ?_, ?_⟩
  · exact regKeys_mapSet_nodup _ u h hnd
  · exact mapGet_set_self _ u h
  · intro v hv
    exact mapGet_set_ne _ u h v hv
  · exact countP_mapSet _ u h hnd

/-- C10 witness: registering handle 7 for user 0 over the registry that
already maps user 0 to handle 1 replaces the entry. -/
theorem register_single_handle_witness :
    (regKeys stReg.userSockets).Nodup
    ∧ ((regKeys (handleConnection stReg 0 7).1.userSockets).Nodup
      ∧ mapGet (handleConnection stReg 0 7).1.userSockets 0 = some 7
      ∧ (∀ v, v ≠ 0 → mapGet (handleConnection stReg 0 7).1.userSockets v
          = mapGet stReg.userSockets v)
      ∧ (handleConnection stReg 0 7).1.userSockets.countP (fun p => p.1 == 0) = 1) :=
  ⟨by decide, register_single_handle stReg 0 7 (by decide)⟩

/-- C4: a send with no directed sender→receiver contact edge reports the
Forbidden-class error to the sender and leaves the store untouched. -/
theorem send_without_contact_fails (st : ServerState) (s r : Nat)
    (c i a : Option String) (ty : MsgType) (rt : Option Nat) (e : String)
    (h : hasContact st s r = false) :
    handleMessageSend false e st s r c i a ty rt
      = (st, [Emit.selfError "Can only send messages to contacts"]) := by
  simp [handleMessageSend, h]

/-- C4 witness: sending in the empty state (no contact edge) fails. -/
theorem send_without_contact_fails_witness :
    hasContact stEmpty 0 1 = false
    ∧ handleMessageSend false "" stEmpty 0 1 (some "hi") none none MsgType.text none
      = (stEmpty, [Emit.selfError "Can only send messages to contacts"]) :=
  ⟨by decide,
   send_without_contact_fails stEmpty 0 1 (some "hi") none none MsgType.text none
     "" (by decide)⟩

/-- C2 counterexample: user 0 currently holds handle 1, yet a disconnect that
supplies the stale handle 2 still removes the mapping — there is no
current-handle guard, so the claim "removing with a stale handle is a no-op
that leaves the fresher handle intact" is false of the code. -/
theorem disconnect_stale_handle_cex :
    mapGet stReg.userSockets 0 = some 1
    ∧ (handleDisconnect stReg 0 2 9).1.userSockets = [] := by decide

/-- C2 (amended): the disconnect handler removes the user's registry mapping
unconditionally — the disconnecting socket's handle is never compared with
the stored one, and the deletion's boolean result is discarded. -/
theorem disconnect_removes_unconditionally (st : ServerState) (u h t : Nat) :
    (handleDisconnect st u h t).1.userSockets = mapDelete st.userSockets u
    ∧ mapGet (handleDisconnect st u h t).1.userSockets u = none
    ∧ ∀ v, v ≠ u → mapGet (handleDisconnect st u h t).1.userSockets v
        = mapGet st.userSockets v := by
  refine ⟨rfl, mapGet_delete_self _ u, ?_⟩
  intro v hv
  exact mapGet_delete_ne _ u v hv

/-- C2 witness: concrete instance of the unconditional removal. -/
theorem disconnect_removes_unconditionally_witness :
    (handleDisconnect stReg 0 2 9).1.userSockets = mapDelete stReg.userSockets 0
    ∧ mapGet (handleDisconnect stReg 0 2 9).1.userSockets 0 = none
    ∧ ∀ v, v ≠ 0 → mapGet (handleDisconnect stReg 0 2 9).1.userSockets v
        = mapGet stReg.userSockets v :=
  disconnect_removes_unconditionally stReg 0 2 9

/-- C3 counterexample: no message exists at all, user 0 is live on handle 5,
and `markRead(1, 0)` still pushes a read-receipt to handle 5 — the push is
not suppressed when zero messages match. -/
theorem markRead_zero_match_push_cex :
    stRead.messages = []
    ∧ mapGet stRead.userSockets 0 = some 5
    ∧ (handleRead false "" stRead 0 1).2 = [Emit.pushRead 5 1] := by decide

/-- C3 (amended): `markRead(B, A)` with zero matching unread messages
succeeds and leaves the store unchanged, but the read-receipt push to A's
live handle is emitted whenever A has one, unconditionally on the number of
messages updated; nothing is ever sent to B. -/
theorem markRead_zero_match (st : ServerState) (A B : Nat) (e : String)
    (h : ∀ m ∈ st.messages, unreadFrom A B m = false) :
    (handleRead false e st A B).1 = st
    ∧ (handleRead false e st A B).2
      = (match mapGet st.userSockets A with
         | some hdl => [Emit.pushRead hdl B]
         | none => []) := by
  have hmsgs := updateMessages_id st.messages (unreadFrom A B) setRead h
  have h1 : (handleRead false e st A B).1
      = { st with messages := updateMessages st.messages (unreadFrom A B) setRead } := rfl
  constructor
  · rw [h1, hmsgs]
  · rfl

/-- C3 witness: in `stRead` zero messages match, and the push still follows
the registry lookup. -/
theorem markRead_zero_match_witness :
    (∀ m ∈ stRead.messages, unreadFrom 0 1 m = false)
    ∧ ((handleRead false "" stRead 0 1).1 = stRead
      ∧ (handleRead false "" stRead 0 1).2
        = (match mapGet stRead.userSockets 0 with
           | some hdl => [Emit.pushRead hdl 1]
           | none => [])) :=
  ⟨by decide, markRead_zero_match stRead 0 1 "" (by decide)⟩

/-- C8 counterexample: registering user 0's first handle emits nothing and
does not touch the user's durable `isOnline` flag — the register itself
triggers neither the online flag nor the broadcast. -/
theorem register_no_online_broadcast_cex :
    stOnline.userSockets = []
    ∧ (handleConnection stOnline 0 7).2 = []
    ∧ (handleConnection stOnline 0 7).1.users
      = [{ id := 0, isOnline := false, lastSeen := none }] := by decide

/-- C8 (amended): registration only installs the registry mapping; the
durable online flag and the `user:status` broadcast happen only when the
client separately emits the `user:online` signal, and then on every such
signal, first handle or not. -/
theorem register_then_online_signal :
    (∀ (st : ServerState) (u h : Nat),
      handleConnection st u h
        = ({ st with userSockets := mapSet st.userSockets u h }, []))
    ∧ (∀ (st : ServerState) (u : Nat),
      handleUserOnline st u
        = ({ st with users := updateUser st.users u (fun x => { x with isOnline := true }) },
           [Emit.broadcastStatus u true])) :=
  ⟨fun _ _ _ => rfl, fun _ _ => rfl⟩

/-- C9 counterexample: a Durable Store failure during `markRead` is swallowed
— no server-error event reaches the initiating connection (the `catch` block
only logs), contradicting the claim that every router operation surfaces a
store failure to the initiator. -/
theorem markRead_store_failure_silent_cex :
    handleRead true "db down" stRead 0 1 = (stRead, []) := rfl

/-- C9 (amended): when the Durable Store write fails, send, edit and
toggle-reaction surface the error's message to the initiating connection and
skip every push, leaving the store unchanged; `markRead` also skips every
push and leaves the store unchanged but emits nothing at all to the
initiator. -/
theorem store_failure_skips_push :
    (∀ (st : ServerState) (s r : Nat) (c i a : Option String) (ty : MsgType)
        (rt : Option Nat) (e : String), hasContact st s r = true →
      handleMessageSend true e st s r c i a ty rt = (st, [Emit.selfError e]))
    ∧ (∀ (st : ServerState) (actor mid : Nat) (c : Option String) (t : Nat)
        (e : String) (msg : Message),
        st.messages.find? (fun m => m.id == mid) = some msg →
        msg.sender = actor → msg.type = MsgType.text →
      handleMessageEdit true e st actor mid c t = (st, [Emit.selfError e]))
    ∧ (∀ (st : ServerState) (u mid : Nat) (em : String) (t : Nat) (e : String)
        (msg : Message), st.messages.find? (fun m => m.id == mid) = some msg →
      handleReaction true e st u mid em t = (st, [Emit.selfError e]))
    ∧ (∀ (st : ServerState) (s r : Nat) (e : String),
      handleRead true e st s r = (st, [])) := by
  refine ⟨?_, ?_, ?_, ?_⟩
  · intro st s r c i a ty rt e h
    simp [handleMessageSend, h]
  · intro st actor mid c t e msg hfind hs ht
    simp [handleMessageEdit, hfind, hs, ht]
  · intro st u mid em t e msg hfind
    simp [handleReaction, hfind]
  · intro st s r e
    rfl

/-- C9 witness: a failing send with an existing contact edge reports the
store error and persists nothing. -/
theorem store_failure_skips_push_witness :
    hasContact stSend 0 1 = true
    ∧ handleMessageSend true "db down" stSend 0 1 (some "hi") none none
        MsgType.text none
      = (stSend, [Emit.selfError "db down"]) :=
  ⟨by decide,
   store_failure_skips_push.1 stSend 0 1 (some "hi") none none MsgType.text none
     "db down" (by decide)⟩

/-- C5 counterexample: with a contact edge 0→1 and an empty store, a send
whose `replyTo` is message id 99 — which resolves to no existing message —
still persists the message and confirms success; no InvalidReference-class
error is raised. -/
theorem send_dangling_reply_cex :
    stSend.messages = []
    ∧ (handleMessageSend false "" stSend 0 1 (some "hi") none none MsgType.text
        (some 99)).1.messages.length = 1
    ∧ (handleMessageSend false "" stSend 0 1 (some "hi") none none MsgType.text
        (some 99)).2 = [Emit.selfEvent "message:sent" 0] := by decide

/-- C5 (amended): the send handler performs no existence check on the reply
target: whenever the contact edge exists, the message is persisted with the
supplied `replyTo` stored verbatim — resolvable or dangling — and the usual
success emissions follow. -/
theorem send_ignores_reply_resolution (st : ServerState) (s r : Nat)
    (c i a : Option String) (ty : MsgType) (rt : Option Nat) (e : String)
    (h : hasContact st s r = true) :
    handleMessageSend false e st s r c i a ty rt
      = ({ st with
            messages := st.messages ++
              [{ id := st.nextId, sender := s, receiver := r, content := c,
                 image := i, audio := a, type := ty, isRead := false,
                 isEdited := false, editedAt := none, replyTo := rt,
                 reactions := [] }],
            nextId := st.nextId + 1 },
         Emit.selfEvent "message:sent" st.nextId ::
           (match mapGet st.userSockets r with
            | some hdl => [Emit.pushEvent hdl "message:receive" st.nextId]
            | none => [])) := by
  simp [handleMessageSend, h]

/-- C5 witness: the dangling reply target 99 is persisted as given. -/
theorem send_ignores_reply_resolution_witness :
    hasContact stSend 0 1 = true
    ∧ handleMessageSend false "" stSend 0 1 (some "hi") none none MsgType.text
        (some 99)
      = ({ stSend with
            messages := stSend.messages ++
              [{ id := stSend.nextId, sender := 0, receiver := 1,
                 content := some "hi", image := none, audio := none,
                 type := MsgType.text, isRead := false, isEdited := false,
                 editedAt := none, replyTo := some 99, reactions := [] }],
            nextId := stSend.nextId + 1 },
         Emit.selfEvent "message:sent" stSend.nextId ::
           (match mapGet stSend.userSockets 1 with
            | some hdl => [Emit.pushEvent hdl "message:receive" stSend.nextId]
            | none => [])) :=
  ⟨by decide,
   send_ignores_reply_resolution stSend 0 1 (some "hi") none none MsgType.text
     (some 99) "" (by decide)⟩

/-- C7: the edit handler's three rejection paths: a missing message yields
the NotFound-class error, a non-sender actor the Forbidden-class error, and
a non-text message the InvalidState-class error — each leaving the state
(hence the message's content, `isEdited` and `editedAt`) untouched. -/
theorem edit_rejections (st : ServerState) (actor mid : Nat)
    (c : Option String) (t : Nat) (e : String) :
    (st.messages.find? (fun m => m.id == mid) = none →
      handleMessageEdit false e st actor mid c t
        = (st, [Emit.selfError "Message not found"]))
    ∧ (∀ msg, st.messages.find? (fun m => m.id == mid) = some msg →
        msg.sender ≠ actor →
        handleMessageEdit false e st actor mid c t
          = (st, [Emit.selfError "Not authorized"]))
    ∧ (∀ msg, st.messages.find? (fun m => m.id == mid) = some msg →
        msg.sender = actor → msg.type ≠ MsgType.text →
        handleMessageEdit false e st actor mid c t
          = (st, [Emit.selfError "Can only edit text messages"])) := by
  refine ⟨?_, ?_, ?_⟩
  · intro hfind
    simp [handleMessageEdit, hfind]
  · intro msg hfind hne
    simp [handleMessageEdit, hfind, hne]
  · intro msg hfind hs ht
    simp [handleMessageEdit, hfind, hs, ht]

/-- C7 witness: editing a nonexistent message in the empty state is
rejected with the NotFound-class error. -/
theorem edit_rejections_witness :
    stEmpty.messages.find? (fun m => m.id == 0) = none
    ∧ handleMessageEdit false "" stEmpty 0 0 none 0
      = (stEmpty, [Emit.selfError "Message not found"]) :=
  ⟨by decide, (edit_rejections stEmpty 0 0 none 0 "").1 (by decide)⟩

/-- When the contact check passes, history retrieval responds with the
pre-update snapshot and overwrites the store with the read-marking update. -/
theorem getChatHistory_messages (st : ServerState) (B A : Nat)
    (h : hasContact st B A = true) :
    (getChatHistory st B A).1.messages
      = updateMessages st.messages (unreadFrom A B) setRead := by
  simp [getChatHistory, h]

/-- C1 counterexample: user 1 retrieves history with user 0; the stored
message from 0 to 1 was unread, and after the retrieval alone — no
`markRead` ever ran — it is persisted with `isRead = true`.  History
retrieval does change read state. -/
theorem history_marks_read_cex :
    msgA.isRead = false
    ∧ (getChatHistory stHist 1 0).1.messages = [{ msgA with isRead := true }] := by
  decide

/-- C1 (amended): a message sent while B is offline is persisted with
`isRead = false` and still shows `isRead = false` in the snapshot B's
history retrieval returns, but the retrieval itself marks every unread
message from A to B as read in the store; `markRead(B, A)` is not the only
transition to `isRead = true`.  Messages not from A to B are untouched. -/
theorem history_retrieval_marks_read (st : ServerState) (B A : Nat)
    (h : hasContact st B A = true) :
    ((getChatHistory st B A).2 = HistoryResult.ok (st.messages.filter (fun m =>
        (m.sender == B && m.receiver == A) || (m.sender == A && m.receiver == B))))
    ∧ (∀ m ∈ (getChatHistory st B A).1.messages,
        m.sender = A → m.receiver = B → m.isRead = true)
    ∧ (∀ m ∈ st.messages, m.sender ≠ A ∨ m.receiver ≠ B →
        m ∈ (getChatHistory st B A).1.messages) := by
  refine ⟨?_, ?_, ?_⟩
  · simp [getChatHistory, h]
  · intro m hm
    rw [getChatHistory_messages st B A h] at hm
    unfold updateMessages at hm
    obtain ⟨m0, hm0, hf⟩ := List.mem_map.mp hm
    subst hf
    by_cases hc : unreadFrom A B m0 = true
    · rw [if_pos hc]
      intro _ _
      rfl
    · rw [if_neg hc]
      intro hs hr
      by_contra hread
      apply hc
      rw [Bool.not_eq_true] at hread
      simp [unreadFrom, hs, hr, hread]
  · intro m hm hne
    rw [getChatHistory_messages st B A h]
    unfold updateMessages
    have hc : unreadFrom A B m = false := by
      cases hne with
      | inl h1 => simp [unreadFrom, h1]
      | inr h1 => simp [unreadFrom, h1]
    refine List.mem_map.mpr ⟨m, hm, ?_⟩
    simp [hc]

/-- C1 witness: the concrete offline scenario, instantiated. -/
theorem history_retrieval_marks_read_witness :
    hasContact stHist 1 0 = true
    ∧ (((getChatHistory stHist 1 0).2 = HistoryResult.ok (stHist.messages.filter (fun m =>
          (m.sender == 1 && m.receiver == 0) || (m.sender == 0 && m.receiver == 1))))
      ∧ (∀ m ∈ (getChatHistory stHist 1 0).1.messages,
          m.sender = 0 → m.receiver = 1 → m.isRead = true)
      ∧ (∀ m ∈ stHist.messages, m.sender ≠ 0 ∨ m.receiver ≠ 1 →
          m ∈ (getChatHistory stHist 1 0).1.messages)) :=
  ⟨by decide, history_retrieval_marks_read stHist 1 0 (by decide)⟩

/-- C6: toggling the same `(actor, emoji)` twice on the same message restores
the message's reaction list to its original state viewed as the set of
`(reactor, emoji)` pairs; a single toggle appends exactly the entry when the
pair is absent and removes exactly the matching entries when it is present. -/
theorem double_toggle_restores_reactions (st : ServerState) (u mid : Nat)
    (em : String) (t1 t2 : Nat) (e1 e2 : String) (msg : Message)
    (hfind : st.messages.find? (fun m => m.id == mid) = some msg) :
    (∃ msg2,
      (handleReaction false e2 (handleReaction false e1 st u mid em t1).1
          u mid em t2).1.messages.find? (fun m => m.id == mid) = some msg2
      ∧ ∀ p, p ∈ reactionPairs msg2.reactions ↔ p ∈ reactionPairs msg.reactions)
    ∧ (∀ (rs : List Reaction) (u2 : Nat) (em2 : String) (t : Nat),
        (u2, em2) ∉ reactionPairs rs →
        toggleReactions rs u2 em2 t
          = rs ++ [{ user := u2, emoji := em2, createdAt := t }])
    ∧ (∀ (rs : List Reaction) (u2 : Nat) (em2 : String) (t : Nat),
        (u2, em2) ∈ reactionPairs rs →
        toggleReactions rs u2 em2 t
          = rs.filter (fun r => !(r.user == u2 && r.emoji == em2))) := by
  have hid : msg.id = mid := by
    have hp := List.find?_some hfind
    simpa using hp
  refine ⟨?_, toggle_absent, toggle_present⟩
  have hmsgs1 : (handleReaction false e1 st u mid em t1).1.messages
      = st.messages.map (fun m => if m.id == mid then
          { msg with reactions := toggleReactions msg.reactions u em t1 }
          else m) :=
    handleReaction_found e1 st u mid em t1 msg hfind
  have hfind1 : (handleReaction false e1 st u mid em t1).1.messages.find?
      (fun m => m.id == mid)
      = some { msg with reactions := toggleReactions msg.reactions u em t1 } := by
    rw [hmsgs1]
    exact find?_update st.messages mid _ hid msg hfind
  have hmsgs2 : (handleReaction false e2 (handleReaction false e1 st u mid em t1).1
        u mid em t2).1.messages
      = (handleReaction false e1 st u mid em t1).1.messages.map
          (fun m => if m.id == mid then
            { msg with reactions :=
                toggleReactions (toggleReactions msg.reactions u em t1) u em t2 }
            else m) :=
    handleReaction_found e2 _ u mid em t2 _ hfind1
  have hfind2 : (handleReaction false e2 (handleReaction false e1 st u mid em t1).1
        u mid em t2).1.messages.find? (fun m => m.id == mid)
      = some { msg with reactions :=
          toggleReactions (toggleReactions msg.reactions u em t1) u em t2 } := by
    rw [hmsgs2]
    exact find?_update _ mid _ hid _ hfind1
  refine ⟨_, hfind2, ?_⟩
  intro p
  exact toggle_toggle_pairs msg.reactions u em t1 t2 p

/-- C6 witness: user 1 toggles "like" twice on the stored message. -/
theorem double_toggle_restores_reactions_witness :
    stReact.messages.find? (fun m => m.id == 0) = some msgA
    ∧ ((∃ msg2,
        (handleReaction false "" (handleReaction false "" stReact 1 0 "like" 3).1
            1 0 "like" 4).1.messages.find? (fun m => m.id == 0) = some msg2
        ∧ ∀ p, p ∈ reactionPairs msg2.reactions ↔ p ∈ reactionPairs msgA.reactions)
      ∧ (∀ (rs : List Reaction) (u2 : Nat) (em2 : String) (t : Nat),
          (u2, em2) ∉ reactionPairs rs →
          toggleReactions rs u2 em2 t
            = rs ++ [{ user := u2, emoji := em2, createdAt := t }])
      ∧ (∀ (rs : List Reaction) (u2 : Nat) (em2 : String) (t : Nat),
          (u2, em2) ∈ reactionPairs rs →
          toggleReactions rs u2 em2 t
            = rs.filter (fun r => !(r.user == u2 && r.emoji == em2)))) :=
  ⟨by decide, double_toggle_restores_reactions stReact 1 0 "like" 3 4 "" "" msgA
    (by decide)⟩

end ChatApp
